import Mathlib

/-
Verification development for the Website Signal Extraction and Scoring
Pipeline (backend/scraper.py, class WebsiteScraper).

Shallow embedding notes:
  * The parsed HTML tree (the BeautifulSoup object) is modelled by the
    inductive type `Dom` in first-child / next-sibling form, so that all
    traversals are structurally recursive and kernel-computable.
  * BeautifulSoup itself (the HTML parser) is an external collaborator:
    a `Response` carries the raw decoded body (`text`), the byte length of
    the raw body (`content_len`), the headers, and the parsed tree (`doc`)
    that BeautifulSoup(response.text, "html.parser") would produce.
  * The network (requests.get) is modelled by `NetOutcome`: either the call
    raised (caught by the bare `except Exception` in fetch) or it returned a
    response after some elapsed wall-clock time.
  * Python string operations are modelled over character lists
    (strLower, strTrim, strContains, strStartsWith, strSplitWs, strTake).
  * Python round() on a non-negative float x = a/b is modelled by exact
    rational round-half-to-even, `pyRoundNat a b`; int() truncation of a
    non-negative quotient is Nat division.  IEEE-754 evaluation in Python can
    differ from the exact rational by one unit at representation boundaries;
    no claim below depends on such a boundary.
  * Mutation of self.soup by get_content_data (the decompose() calls) is
    modelled by explicit state passing: get_content_data returns the updated
    ScraperState, and scrape_all threads it exactly in the evaluation order
    of the Python dict literal (url, title, seo, speed, content, ux).
-/

/-! ## Python-style string primitives (over character lists) -/

def strLower (s : String) : String := String.mk (s.toList.map Char.toLower)

def strTrim (s : String) : String :=
  String.mk (((s.toList.dropWhile Char.isWhitespace).reverse.dropWhile Char.isWhitespace).reverse)

def strTake (s : String) (n : Nat) : String := String.mk (s.toList.take n)

def listIsInfixOf (needle : List Char) : List Char → Bool
  | [] => needle.isEmpty
  | c :: t => needle.isPrefixOf (c :: t) || listIsInfixOf needle t

/-- Python `needle in hay` substring test. -/
def strContains (hay needle : String) : Bool := listIsInfixOf needle.toList hay.toList

/-- Python `s.startswith(p)`. -/
def strStartsWith (s p : String) : Bool := p.toList.isPrefixOf s.toList

/-- Maximal runs of characters satisfying `p` (used for tokenizing). -/
def wordRunsAux (p : Char → Bool) : List Char → List Char → List (List Char)
  | [], cur => if cur.isEmpty then [] else [cur.reverse]
  | c :: cs, cur =>
    if p c then wordRunsAux p cs (c :: cur)
    else if cur.isEmpty then wordRunsAux p cs []
    else cur.reverse :: wordRunsAux p cs []

def wordRuns (p : Char → Bool) (l : List Char) : List (List Char) := wordRunsAux p l []

/-- Python `s.split()`: split on whitespace runs, dropping empty pieces. -/
def strSplitWs (s : String) : List String :=
  (wordRuns (fun c => !c.isWhitespace) s.toList).map String.mk

/-- Regex word character for Python `\b` boundaries (ASCII fragment of `\w`). -/
def isWordChar (c : Char) : Bool := c.isAlphanum || c = '_'

/-- Model of `re.findall(r"\b[a-zA-Z]\x7b2,\x7d\b", text)`: a match is exactly a
maximal word-character run that consists solely of letters and has length at
least 2 (shorter runs or runs touching digits or underscores never match). -/
def tokenize (s : String) : List String :=
  ((wordRuns isWordChar s.toList).filter
    (fun r => decide (2 ≤ r.length) && r.all Char.isAlpha)).map String.mk

/-- Python `round(a / b)` for non-negative integers `a`, `b` with `b > 0`:
round half to even of the exact rational a/b. -/
def pyRoundNat (a b : Nat) : Nat :=
  if 2 * (a % b) < b then a / b
  else if b < 2 * (a % b) then a / b + 1
  else if (a / b) % 2 = 0 then a / b else a / b + 1

/-- Python `round(q, 2)` on a non-negative rational. -/
def round2 (q : ℚ) : ℚ :=
  let f := ⌊q * 100⌋
  let n : ℤ :=
    if q * 100 - (f : ℚ) < 1/2 then f
    else if 1/2 < q * 100 - (f : ℚ) then f + 1
    else if f % 2 = 0 then f else f + 1
  (n : ℚ) / 100

/-! ## The DOM view -/

/-- Parsed markup tree in first-child / next-sibling form.  `nil` ends a
sibling chain.  Tag and attribute names are as html.parser produces them
(lower-cased). -/
inductive Dom where
  | nil
  | text (s : String) (next : Dom)
  | elem (name : String) (attrs : List (String × String)) (children : Dom) (next : Dom)
deriving DecidableEq

/-- One element ("Tag" in BeautifulSoup terms): its name, attributes and
children. -/
structure Tag where
  name : String
  attrs : List (String × String)
  children : Dom
deriving DecidableEq

/-- All elements of the tree in document order (self before children before
following siblings), as soup.find_all() enumerates them. -/
def elemsF : Dom → List Tag
  | .nil => []
  | .text _ next => elemsF next
  | .elem n a cs next => ⟨n, a, cs⟩ :: (elemsF cs ++ elemsF next)

/-- All text nodes of the tree in document order. -/
def textsF : Dom → List String
  | .nil => []
  | .text s next => s :: textsF next
  | .elem _ _ cs next => textsF cs ++ textsF next

def serializeAttrs : List (String × String) → String
  | [] => ""
  | (k, v) :: rest => " " ++ k ++ "=\"" ++ v ++ "\"" ++ serializeAttrs rest

/-- Serialized markup, modelling Python `str(self.soup)` closely enough for
the substring heuristics applied to it. -/
def serializeF : Dom → String
  | .nil => ""
  | .text s next => s ++ serializeF next
  | .elem n a cs next =>
      "<" ++ n ++ serializeAttrs a ++ ">" ++ serializeF cs ++ "</" ++ n ++ ">" ++ serializeF next

/-- Remove every element whose name is listed, together with its whole
subtree: the effect of decompose() on each tag of soup([names]). -/
def pruneF (names : List String) : Dom → Dom
  | .nil => .nil
  | .text s next => .text s (pruneF names next)
  | .elem n a cs next =>
    if names.contains n then pruneF names next
    else .elem n a (pruneF names cs) (pruneF names next)

/-- BeautifulSoup get_text(separator, strip): the document's text nodes in
order, each stripped (and dropped when blank) when `strip` is true, joined
with the separator. -/
def getText (sep : String) (strip : Bool) (d : Dom) : String :=
  let ss := textsF d
  String.intercalate sep (if strip then (ss.map strTrim).filter (fun s => s != "") else ss)

/-- Attribute lookup, Python `tag.get(k)`. -/
def Tag.attr (t : Tag) (k : String) : Option String :=
  (t.attrs.find? (fun p => p.1 == k)).map Prod.snd

/-- Attribute lookup with default, Python `tag.get(k, d)`. -/
def Tag.attrD (t : Tag) (k d : String) : String := (t.attr k).getD d

/-- find_all(name): elements with the given tag name, document order. -/
def elemsNamed (d : Dom) (n : String) : List Tag :=
  (elemsF d).filter (fun t => t.name == n)

/-- Membership test on a multi-valued attribute such as rel: BeautifulSoup
splits the attribute on whitespace and matches a plain-string filter against
the individual values. -/
def relHas (t : Tag) (v : String) : Bool := (strSplitWs (t.attrD "rel" "")).contains v

/-! ## Signal-set records (fields in the order of the source dicts) -/

structure SeoData where
  title : String
  title_length : Nat
  meta_description : String
  meta_description_length : Nat
  h1_count : Nat
  h1_texts : List String
  h2_count : Nat
  meta_keywords : String
  canonical_url : String
  has_robots_meta : Bool
  og_tags : List (String × String)
  internal_links : Nat
  external_links : Nat
  image_alt_ratio : Nat
  structured_data : Bool
deriving DecidableEq

structure SpeedData where
  load_time : ℚ
  page_size_kb : ℚ
  total_requests : Nat
  css_files : Nat
  js_files : Nat
  image_count : Nat
  has_compression : Bool
  has_caching : Bool
deriving DecidableEq

structure ContentData where
  word_count : Nat
  paragraph_count : Nat
  unique_words : Nat
  avg_paragraph_length : Nat
  has_blog : Bool
  has_faq : Bool
  content_to_code_ratio : Nat
  reading_level : String
deriving DecidableEq

structure UxData where
  has_viewport_meta : Bool
  has_favicon : Bool
  form_count : Nat
  button_count : Nat
  navigation_elements : Nat
  has_search : Bool
  has_social_links : Bool
  has_contact_info : Bool
  mobile_friendly_indicators : Nat
  accessibility_score : Nat
deriving DecidableEq

/-! ## Fetch layer -/

/-- Outcome of requests.get: body text, byte length of the raw body,
headers, HTTP status, and the tree that parsing the body yields. -/
structure Response where
  status_code : Nat
  text : String
  content_len : Nat
  headers : List (String × String)
  doc : Dom
deriving DecidableEq

/-- requests' case-insensitive headers.get(k, ""). -/
def getHeader (hs : List (String × String)) (k : String) : String :=
  ((hs.find? (fun p => strLower p.1 == strLower k)).map Prod.snd).getD ""

/-- Mutable state of a WebsiteScraper instance (url, soup, response,
load_time); the timeout only parametrizes the external network call. -/
structure ScraperState where
  url : String
  soup : Option Dom
  response : Option Response
  load_time : ℚ

/-- Python `url.rstrip("/")` (only "/" is stripped here). -/
def rstripSlash (s : String) : String :=
  String.mk ((s.toList.reverse.dropWhile (fun c => c == '/')).reverse)

/-- WebsiteScraper._normalize_url: prepend "https://" unless the url starts
with "http://" or "https://", then strip trailing "/". -/
def normalize_url (url : String) : String :=
  rstripSlash
    (if strStartsWith url "http://" || strStartsWith url "https://" then url
     else "https://" ++ url)

/-- WebsiteScraper.__init__. -/
def initState (url : String) : ScraperState :=
  { url := normalize_url url, soup := none, response := none, load_time := 0 }

/-- What the external requests.get call did: raised an exception
(network error / timeout, swallowed by the bare except) or returned a
response after `elapsed` seconds. -/
inductive NetOutcome where
  | exn
  | ok (r : Response) (elapsed : ℚ)

/-- WebsiteScraper.fetch: stores response and load_time, builds the soup and
returns True exactly on status 200; returns False on any other status or on
an exception (in which case response/load_time keep their prior values). -/
def fetch (s : ScraperState) (net : NetOutcome) : Bool × ScraperState :=
  match net with
  | .exn => (false, s)
  | .ok r elapsed =>
    let s1 := { s with response := some r, load_time := elapsed }
    if r.status_code = 200 then (true, { s1 with soup := some r.doc })
    else (false, s1)

/-- Whether the modelled fetch succeeds (status exactly 200, no exception). -/
def netSuccess : NetOutcome → Bool
  | .exn => false
  | .ok r _ => r.status_code == 200

/-! ## SEO extractor -/

/-- urlparse(u).netloc for the http/https URLs this code feeds it (the
normalized self.url and hrefs that start with http:// or https://); other
inputs have no "//"-authority and give "". -/
def takeNetloc (l : List Char) : String :=
  String.mk (l.takeWhile (fun c => c != '/' && c != '?' && c != '#'))

def netloc (url : String) : String :=
  if strStartsWith url "http://" then takeNetloc (url.toList.drop 7)
  else if strStartsWith url "https://" then takeNetloc (url.toList.drop 8)
  else ""

def imagesOf (d : Dom) : List Tag := elemsNamed d "img"

/-- Image alt-text ratio of get_seo_data: round(images_with_alt / len(images)
* 100) when images exist (alt counted when non-blank after strip), else the
dict's default 0. -/
def imgAltRatioOf (d : Dom) : Nat :=
  let images := imagesOf d
  if images.isEmpty then 0
  else
    pyRoundNat ((images.countP (fun img => strTrim (img.attrD "alt" "") != "")) * 100)
      images.length

/-- hrefs of find_all("a", href=True), in document order. -/
def hrefsOf (d : Dom) : List String :=
  ((elemsF d).filter (fun t => t.name == "a" && (t.attr "href").isSome)).map
    (fun t => t.attrD "href" "")

/-- Loop body of the links analysis in get_seo_data; acc = (internal,
external). -/
def linkStep (base : String) (acc : Nat × Nat) (href : String) : Nat × Nat :=
  if strStartsWith href "http://" || strStartsWith href "https://" then
    if strContains (netloc href) base then (acc.1 + 1, acc.2) else (acc.1, acc.2 + 1)
  else if strStartsWith href "/" then (acc.1 + 1, acc.2)
  else acc

def linkCounts (base : String) (hrefs : List String) : Nat × Nat :=
  hrefs.foldl (linkStep base) (0, 0)

/-- Body of get_seo_data once soup is present; `base` is
urlparse(self.url).netloc. -/
def seoFields (base : String) (d : Dom) : SeoData :=
  let es := elemsF d
  let title :=
    match es.find? (fun t => t.name == "title") with
    | some t => getText "" true t.children
    | none => ""
  let meta_description :=
    match es.find? (fun t => t.name == "meta" && t.attr "name" == some "description") with
    | some m => m.attrD "content" ""
    | none => ""
  let meta_keywords :=
    match es.find? (fun t => t.name == "meta" && t.attr "name" == some "keywords") with
    | some m => m.attrD "content" ""
    | none => ""
  let h1s := elemsNamed d "h1"
  let canonical_url :=
    match es.find? (fun t => t.name == "link" && relHas t "canonical") with
    | some l => l.attrD "href" ""
    | none => ""
  let ogs := es.filter (fun t =>
    t.name == "meta" &&
    (match t.attr "property" with
     | some p => strStartsWith p "og:"
     | none => false))
  let links := linkCounts base (hrefsOf d)
  { title := title
    title_length := title.length
    meta_description := meta_description
    meta_description_length := meta_description.length
    h1_count := h1s.length
    h1_texts := (h1s.take 3).map (fun h => strTake (getText "" true h.children) 100)
    h2_count := (elemsNamed d "h2").length
    meta_keywords := meta_keywords
    canonical_url := canonical_url
    has_robots_meta :=
      (es.find? (fun t => t.name == "meta" && t.attr "name" == some "robots")).isSome
    og_tags := ogs.map (fun t => (t.attrD "property" "", t.attrD "content" ""))
    internal_links := links.1
    external_links := links.2
    image_alt_ratio := imgAltRatioOf d
    structured_data :=
      decide (0 < (es.filter (fun t =>
        t.name == "script" && t.attr "type" == some "application/ld+json")).length) }

/-- WebsiteScraper.get_seo_data; the empty dict on a missing soup is
modelled by `none`. -/
def get_seo_data (s : ScraperState) : Option SeoData :=
  match s.soup with
  | none => none
  | some doc => some (seoFields (netloc s.url) doc)

/-! ## Speed extractor -/

/-- WebsiteScraper.get_speed_data: always returns the full dict, filling the
response- and soup-derived fields only when those are present. -/
def get_speed_data (s : ScraperState) : SpeedData :=
  let base : SpeedData :=
    { load_time := round2 s.load_time
      page_size_kb := 0
      total_requests := 1
      css_files := 0
      js_files := 0
      image_count := 0
      has_compression := false
      has_caching := false }
  let withResp :=
    match s.response with
    | none => base
    | some r =>
      let cache_control := getHeader r.headers "Cache-Control"
      { base with
        page_size_kb := round2 ((r.content_len : ℚ) / 1024)
        has_compression := strContains (strLower (getHeader r.headers "Content-Encoding")) "gzip"
        has_caching := cache_control != "" && !(strContains (strLower cache_control) "no-cache") }
  match s.soup with
  | none => withResp
  | some doc =>
    { withResp with
      css_files := ((elemsF doc).filter (fun t => t.name == "link" && relHas t "stylesheet")).length
      js_files := ((elemsF doc).filter (fun t => t.name == "script" && (t.attr "src").isSome)).length
      image_count := (imagesOf doc).length }

/-! ## Content extractor -/

def pruneNames : List String := ["script", "style", "nav", "header", "footer"]

/-- avg_paragraph_length over the (pruned) soup: round of mean word count per
paragraph when paragraphs exist, else the dict's default 0. -/
def avgParLenOf (pruned : Dom) : Nat :=
  let paragraphs := elemsNamed pruned "p"
  if paragraphs.isEmpty then 0
  else
    pyRoundNat
      ((paragraphs.map (fun p => (strSplitWs (getText "" true p.children)).length)).sum)
      paragraphs.length

/-- content_to_code_ratio: round(text_length / html_length * 100) guarded by
html_length > 0, else the dict's default 0. -/
def contentRatioOf (htmlText visibleText : String) : Nat :=
  if 0 < htmlText.length then pyRoundNat (visibleText.length * 100) htmlText.length else 0

/-- WebsiteScraper.get_content_data.  The decompose() loop mutates self.soup
in place; that mutation is returned as the updated state. -/
def get_content_data (s : ScraperState) : Option ContentData × ScraperState :=
  match s.soup with
  | none => (none, s)
  | some doc =>
    let pruned := pruneF pruneNames doc
    let text := getText " " true pruned
    let words := tokenize (strLower text)
    let page_text := match s.response with | some r => strLower r.text | none => ""
    (some
      { word_count := words.length
        paragraph_count := (elemsNamed pruned "p").length
        unique_words := words.dedup.length
        avg_paragraph_length := avgParLenOf pruned
        has_blog := ["blog", "article", "post", "news"].any (fun ind => strContains page_text ind)
        has_faq :=
          ["faq", "frequently asked", "questions"].any (fun ind => strContains page_text ind)
        content_to_code_ratio :=
          match s.response with
          | some r => contentRatioOf r.text text
          | none => 0
        reading_level := "medium" },
     { s with soup := some pruned })

/-! ## UX extractor -/

/-- find_all(["button", 'input[type="button"]', 'input[type="submit"]'])
matches by tag name; the two selector-like strings are compared against tag
names literally. -/
def buttonFindAllNames : List String :=
  ["button", "input[type=\"button\"]", "input[type=\"submit\"]"]

def responsiveClasses : List String :=
  ["container", "row", "col-", "flex", "grid", "responsive", "mobile"]

def socialDomains : List String :=
  ["facebook", "twitter", "linkedin", "instagram", "youtube", "tiktok"]

def contactIndicators : List String := ["contact", "email", "phone", "tel:", "mailto:"]

/-- Image part of the accessibility score: int((with_alt / len(images)) * 30)
under the `if images:` guard; here alt counts when present and non-empty
(no strip in this extractor). -/
def imgAccPart (d : Dom) : Nat :=
  let images := imagesOf d
  if images.isEmpty then 0
  else
    ((images.countP (fun img =>
      match img.attr "alt" with
      | some v => v != ""
      | none => false)) * 30) / images.length

/-- Label/input part of the accessibility score: min(30, int((len(labels) /
len(inputs)) * 30)) under the `if inputs and labels:` guard. -/
def labelAccPart (d : Dom) : Nat :=
  let labels := elemsNamed d "label"
  let inputs := elemsNamed d "input"
  if !inputs.isEmpty && !labels.isEmpty then
    min 30 ((labels.length * 30) / inputs.length)
  else 0

/-- Body of get_ux_data once soup is present. -/
def uxFields (d : Dom) : UxData :=
  let es := elemsF d
  let has_viewport :=
    (es.find? (fun t => t.name == "meta" && t.attr "name" == some "viewport")).isSome
  let serialized := serializeF d
  let page_text := strLower (getText "" false d)
  let mobile_score :=
    (if has_viewport then 30 else 0) +
    (if responsiveClasses.any (fun cls => strContains serialized cls) then 40 else 0)
  let accessibility_raw :=
    imgAccPart d
    + (if (es.find? (fun t => t.name == "h1")).isSome then 20 else 0)
    + labelAccPart d
    + (if es.any (fun t => (t.attr "aria-label").isSome) then 20 else 0)
  { has_viewport_meta := has_viewport
    has_favicon :=
      (es.find? (fun t => t.name == "link" && strContains (strLower (t.attrD "rel" "")) "icon")).isSome
    form_count := (elemsNamed d "form").length
    button_count := (es.filter (fun t => buttonFindAllNames.contains t.name)).length
    navigation_elements := (elemsNamed d "nav").length
    has_search :=
      decide (0 < (es.filter (fun t => t.name == "input" && t.attr "type" == some "search")).length)
      || decide (0 < (es.filter (fun t =>
           match t.attr "class" with
           | some v => strContains (strLower v) "search"
           | none => false)).length)
    has_social_links :=
      (hrefsOf d).any (fun href => socialDomains.any (fun social => strContains (strLower href) social))
    has_contact_info :=
      contactIndicators.any (fun ind => strContains page_text ind || strContains serialized ind)
    mobile_friendly_indicators := mobile_score
    accessibility_score := min 100 accessibility_raw }

/-- WebsiteScraper.get_ux_data; the empty dict on a missing soup is modelled
by `none`. -/
def get_ux_data (s : ScraperState) : Option UxData :=
  match s.soup with
  | none => none
  | some doc => some (uxFields doc)

/-! ## Pipeline -/

structure ScrapeResult where
  url : String
  error : Option String
  title : Option String
  seo : Option SeoData
  speed : Option SpeedData
  content : Option ContentData
  ux : Option UxData

/-- soup.title.get_text(strip=True) if soup.title else "". -/
def soupTitleText (d : Dom) : String :=
  match (elemsF d).find? (fun t => t.name == "title") with
  | some t => getText "" true t.children
  | none => ""

/-- WebsiteScraper.scrape_all.  On fetch failure the error record carries
empty signal sets (`none`); on success the dict entries are evaluated in
source order, so title/seo/speed see the soup before get_content_data
mutates it and get_ux_data sees it after. -/
def scrape_all (s : ScraperState) (net : NetOutcome) : Bool × ScrapeResult :=
  match fetch s net with
  | (false, s1) =>
    (false,
      { url := s1.url, error := some "Failed to fetch website", title := none,
        seo := none, speed := none, content := none, ux := none })
  | (true, s1) =>
    let doc := match s1.soup with | some d => d | none => .nil
    let (content, s2) := get_content_data s1
    (true,
      { url := s1.url
        error := none
        title := some (soupTitleText doc)
        seo := get_seo_data s1
        speed := some (get_speed_data s1)
        content := content
        ux := get_ux_data s2 })

/-! ## Claim-side definitions (worded from the spec/claims, for comparison
with the source-derived definitions above) -/

def isSchemeTailChar (c : Char) : Bool :=
  c.isAlphanum || c = '+' || c = '-' || c = '.'

def hasSchemeAux : List Char → Bool
  | [] => false
  | c :: rest => if c = ':' then true else isSchemeTailChar c && hasSchemeAux rest

/-- Claim-side notion of "the URL has a scheme" (C4, C6): a URI scheme is a
leading letter followed by letters, digits, plus, minus or dot, up to a
colon. -/
def hasScheme (s : String) : Bool :=
  match s.toList with
  | [] => false
  | c :: rest => c.isAlpha && hasSchemeAux rest

def dropThroughColon : List Char → List Char
  | [] => []
  | c :: rest => if c = ':' then rest else dropThroughColon rest

/-- Claim-side host of an absolute URL of any scheme (general
urlparse().netloc, for C6's reading of "the link's host"). -/
def claim_netloc (href : String) : String :=
  if hasScheme href then
    let rest := dropThroughColon href.toList
    if ['/', '/'].isPrefixOf rest then takeNetloc (rest.drop 2) else ""
  else ""

/-- Claim C4 as stated: prepend "https://" if and only if no scheme is
present, then strip trailing "/". -/
def claim_normalize (url : String) : String :=
  rstripSlash (if hasScheme url then url else "https://" ++ url)

/-- Claim C6 as stated: an anchor href is counted internal when it is
absolute (has a scheme) and the page's host is a substring of its host, or
when it starts with "/". -/
def claim_C6_internal (base href : String) : Bool :=
  if hasScheme href then strContains (claim_netloc href) base
  else strStartsWith href "/"

/-- Claim C6 as stated: an absolute (scheme-bearing) href whose host does not
contain the page's host is counted external. -/
def claim_C6_external (base href : String) : Bool :=
  hasScheme href && !(strContains (claim_netloc href) base)

/-- Amended C6: "absolute" restricted to hrefs starting with "http://" or
"https://" (all other hrefs are counted as neither). -/
def amended_isInternal (base href : String) : Bool :=
  if strStartsWith href "http://" || strStartsWith href "https://" then
    strContains (netloc href) base
  else strStartsWith href "/"

/-- Amended C6, the external side. -/
def amended_isExternal (base href : String) : Bool :=
  (strStartsWith href "http://" || strStartsWith href "https://")
    && !(strContains (netloc href) base)

/-- Claim C3 as stated (and as the spec words it): count of button elements
plus count of input elements typed submit or button. -/
def claim_button_count (d : Dom) : Nat :=
  (elemsNamed d "button").length +
    ((elemsNamed d "input").filter (fun t =>
      t.attrD "type" "" == "submit" || t.attrD "type" "" == "button")).length

/-- Whether the last character is "/" (for C4's "does not end in /"). -/
def endsWithSlash (s : String) : Bool := s.toList.reverse.head? == some '/'

/-! ## Checked-division variants (C9): each division site of the extractors,
with the division replaced by an Option-valued division and the source's
guard kept -/

def natDivChecked (a b : Nat) : Option Nat := if b = 0 then none else some (a / b)

def pyRoundNatChecked (a b : Nat) : Option Nat := if b = 0 then none else some (pyRoundNat a b)

def imgAltRatioChecked (d : Dom) : Option Nat :=
  let images := imagesOf d
  if images.isEmpty then some 0
  else
    pyRoundNatChecked ((images.countP (fun img => strTrim (img.attrD "alt" "") != "")) * 100)
      images.length

def avgParLenChecked (pruned : Dom) : Option Nat :=
  let paragraphs := elemsNamed pruned "p"
  if paragraphs.isEmpty then some 0
  else
    pyRoundNatChecked
      ((paragraphs.map (fun p => (strSplitWs (getText "" true p.children)).length)).sum)
      paragraphs.length

def contentRatioChecked (htmlText visibleText : String) : Option Nat :=
  if 0 < htmlText.length then pyRoundNatChecked (visibleText.length * 100) htmlText.length
  else some 0

def labelAccChecked (d : Dom) : Option Nat :=
  let labels := elemsNamed d "label"
  let inputs := elemsNamed d "input"
  if !inputs.isEmpty && !labels.isEmpty then
    (natDivChecked (labels.length * 30) inputs.length).map (fun v => min 30 v)
  else some 0

/-! ## Concrete documents used by counterexamples and evaluations -/

/-- The spec's end-to-end page: nav with text "Menu" followed by a paragraph
"one two three". -/
def navDoc : Dom :=
  .elem "nav" [] (.text "Menu" .nil) (.elem "p" [] (.text "one two three" .nil) .nil)

/-- A 200 response whose body parses to `navDoc`. -/
def navResponse : Response :=
  { status_code := 200
    text := "<nav>Menu</nav><p>one two three</p>"
    content_len := 35
    headers := []
    doc := navDoc }

/-- One button element and one submit-typed input element. -/
def buttonDoc : Dom :=
  .elem "button" [] .nil (.elem "input" [("type", "submit")] .nil .nil)

/-- A single image whose alt attribute is whitespace only (non-empty but
blank). -/
def blankAltDoc : Dom := .elem "img" [("alt", " ")] .nil .nil

/-- A single image with a non-blank alt attribute. -/
def altDoc : Dom := .elem "img" [("alt", "x")] .nil .nil

/-- An anchor whose href is absolute with a non-http scheme on a host that
contains the page's host. -/
def ftpDoc : Dom := .elem "a" [("href", "ftp://sub.example.com/x")] (.text "file" .nil) .nil

/-- State with a given (already normalized) url and a parsed soup, as after a
successful fetch whose response is not further inspected. -/
def stateOf (url : String) (d : Dom) : ScraperState :=
  { url := url, soup := some d, response := none, load_time := 0 }

/-! ## Helper lemmas -/

theorem pyRoundNat_le {a b n : Nat} (hb : 0 < b) (h : a ≤ n * b) : pyRoundNat a b ≤ n := by
  unfold pyRoundNat
  have hq : a / b ≤ n := by
    have h2 : a / b ≤ n * b / b := Nat.div_le_div_right h
    rwa [Nat.mul_div_cancel n hb] at h2
  have hmod : b * (a / b) + a % b = a := Nat.div_add_mod a b
  have hcomm : n * b = b * n := Nat.mul_comm n b
  have hsucc : a / b < n → a / b + 1 ≤ n := fun hlt => hlt
  by_cases hqn : a / b = n
  · have hr0 : a % b = 0 := by
      have hbn : b * n + a % b = a := by rw [← hqn]; exact hmod
      omega
    simp [hr0, hb, hq]
  · have hlt : a / b < n := lt_of_le_of_ne hq hqn
    split
    · exact hq
    · split
      · omega
      · split <;> omega

theorem pyRoundNat_mul (hb : 0 < b) : pyRoundNat (b * n) b = n := by
  unfold pyRoundNat
  have h1 : b * n / b = n := Nat.mul_div_cancel_left n hb
  have h2 : b * n % b = 0 := Nat.mul_mod_right b n
  simp [h1, h2, hb]

theorem rstripSlash_not_endsWithSlash (s : String) :
    endsWithSlash (rstripSlash s) = false := by
  unfold endsWithSlash rstripSlash
  have htl : (String.mk ((s.toList.reverse.dropWhile (fun c => c == '/')).reverse)).toList
      = (s.toList.reverse.dropWhile (fun c => c == '/')).reverse := rfl
  rw [htl, List.reverse_reverse]
  have := List.head?_dropWhile_not (fun c => c == '/') s.toList.reverse
  revert this
  cases (s.toList.reverse.dropWhile (fun c => c == '/')).head? with
  | none => intro _; rfl
  | some c => intro hc; simpa using hc

theorem hasScheme_cons_http (rest : List Char) :
    hasScheme (String.mk ('h' :: 't' :: 't' :: 'p' :: ':' :: rest)) = true := rfl

theorem hasScheme_cons_https (rest : List Char) :
    hasScheme (String.mk ('h' :: 't' :: 't' :: 'p' :: 's' :: ':' :: rest)) = true := rfl

theorem hasScheme_rstrip_http (s : String) (h : strStartsWith s "http://" = true) :
    hasScheme (rstripSlash s) = true := by
  have hp : "http://".toList <+: s.toList := by
    rw [← List.isPrefixOf_iff_prefix]; exact h
  obtain ⟨t, ht⟩ := hp
  unfold rstripSlash
  rw [← ht, List.reverse_append]
  have hrev : ("http://".toList).reverse = ['/', '/', ':', 'p', 't', 't', 'h'] := rfl
  rw [hrev, List.dropWhile_append]
  split
  · rfl
  · rw [List.reverse_append]
    exact hasScheme_cons_http _

theorem hasScheme_rstrip_https (s : String) (h : strStartsWith s "https://" = true) :
    hasScheme (rstripSlash s) = true := by
  have hp : "https://".toList <+: s.toList := by
    rw [← List.isPrefixOf_iff_prefix]; exact h
  obtain ⟨t, ht⟩ := hp
  unfold rstripSlash
  rw [← ht, List.reverse_append]
  have hrev : ("https://".toList).reverse = ['/', '/', ':', 's', 'p', 't', 't', 'h'] := rfl
  rw [hrev, List.dropWhile_append]
  split
  · rfl
  · rw [List.reverse_append]
    exact hasScheme_cons_https _

theorem linkStep_eq (base : String) (acc : Nat × Nat) (href : String) :
    linkStep base acc href
      = (acc.1 + (if amended_isInternal base href then 1 else 0),
         acc.2 + (if amended_isExternal base href then 1 else 0)) := by
  cases hA : (strStartsWith href "http://" || strStartsWith href "https://") <;>
    cases hC : strContains (netloc href) base <;>
    cases hS : strStartsWith href "/" <;>
    simp [linkStep, amended_isInternal, amended_isExternal, hA, hC, hS]

theorem linkCounts_foldl (base : String) (hrefs : List String) (acc : Nat × Nat) :
    hrefs.foldl (linkStep base) acc
      = (acc.1 + hrefs.countP (fun href => amended_isInternal base href),
         acc.2 + hrefs.countP (fun href => amended_isExternal base href)) := by
  induction hrefs generalizing acc with
  | nil => simp
  | cons h t ih =>
    rw [List.foldl_cons, ih, linkStep_eq]
    simp only [List.countP_cons, Prod.mk.injEq]
    constructor <;> omega

theorem imgAltRatioOf_le_100 (d : Dom) : imgAltRatioOf d ≤ 100 := by
  simp only [imgAltRatioOf]
  split
  · omega
  · rename_i hne
    have hlen : 0 < (imagesOf d).length := by
      cases he : imagesOf d with
      | nil => rw [he] at hne; simp at hne
      | cons a l => simp
    refine pyRoundNat_le hlen ?_
    have hc := List.countP_le_length
      (p := fun img => strTrim (img.attrD "alt" "") != "") (l := imagesOf d)
    omega

theorem imgAltRatioOf_all_alt (d : Dom) (hne : (imagesOf d).isEmpty = false)
    (hall : ((imagesOf d).all (fun img => strTrim (img.attrD "alt" "") != "")) = true) :
    imgAltRatioOf d = 100 := by
  simp only [imgAltRatioOf]
  rw [hne]
  simp only [Bool.false_eq_true, if_false]
  have hlen : 0 < (imagesOf d).length := by
    cases he : imagesOf d with
    | nil => rw [he] at hne; simp at hne
    | cons a l => simp
  have hcount : (imagesOf d).countP (fun img => strTrim (img.attrD "alt" "") != "")
      = (imagesOf d).length :=
    List.countP_eq_length.mpr (List.all_eq_true.mp hall)
  rw [hcount]
  exact pyRoundNat_mul hlen

theorem imgAltRatioOf_no_images (d : Dom) (he : (imagesOf d).isEmpty = true) :
    imgAltRatioOf d = 0 := by
  simp only [imgAltRatioOf]
  rw [he]
  simp

/-! ## Claim theorems -/

/-- Claim C1 (code bug): on the spec's page `<nav>Menu</nav><p>one two
three</p>`, get_content_data does report word_count = 3 and get_ux_data on
the unmodified view reports navigation_elements = 1, but in the scrape_all
pipeline get_content_data prunes the nav from the shared soup before
get_ux_data runs, so the pipeline's ux signal set reports
navigation_elements = 0, not the claimed 1. -/
theorem C1_pipeline_mutation_eval :
    ((scrape_all (initState "example.com") (NetOutcome.ok navResponse 1)).2.content.map
      ContentData.word_count) = some 3
    ∧ ((get_ux_data (stateOf "https://example.com" navDoc)).map UxData.navigation_elements)
      = some 1
    ∧ ((scrape_all (initState "example.com") (NetOutcome.ok navResponse 1)).2.ux.map
      UxData.navigation_elements) = some 0 := by
  decide

/-- Claim C2: scrape_all returns its success flag and an error record with
the url, the error reason and all four signal sets empty exactly when the
fetch fails (exception or status other than 200), and a record with all four
signal sets populated when the fetch succeeds with status 200; the modelled
pipeline is a total function, so no exception escapes it. -/
theorem C2_scrape_all_error_contract (s : ScraperState) (net : NetOutcome) :
    (scrape_all s net).1 = netSuccess net
    ∧ (scrape_all s net).2.error
        = (if netSuccess net then none else some "Failed to fetch website")
    ∧ (scrape_all s net).2.seo.isSome = netSuccess net
    ∧ (scrape_all s net).2.speed.isSome = netSuccess net
    ∧ (scrape_all s net).2.content.isSome = netSuccess net
    ∧ (scrape_all s net).2.ux.isSome = netSuccess net := by
  cases net with
  | exn => simp [scrape_all, fetch, netSuccess]
  | ok r e =>
    by_cases h : r.status_code = 200
    · simp [scrape_all, fetch, netSuccess, h, get_seo_data, get_content_data, get_ux_data]
    · simp [scrape_all, fetch, netSuccess, h]

/-- Claim C3 (code bug): for a page with one button element and one
submit-typed input, the claim (and the spec) demand button_count = 2, but
find_all receives the CSS-selector-like strings as tag names, which never
match parsed tags, so the code counts only the button element: 1. -/
theorem C3_button_count_eval :
    ((get_ux_data (stateOf "https://example.com" buttonDoc)).map UxData.button_count) = some 1
    ∧ claim_button_count buttonDoc = 2 := by
  decide

/-- Claim C4, counterexample: "ftp://example.com" has a scheme, yet
normalize_url still prepends "https://", so prepending is not governed by
"no scheme is present" as claimed. -/
theorem C4_counterexample_scheme_url :
    hasScheme "ftp://example.com" = true
    ∧ normalize_url "ftp://example.com" = "https://ftp://example.com"
    ∧ claim_normalize "ftp://example.com" ≠ normalize_url "ftp://example.com" := by
  decide

/-- Claim C4, amended: normalize_url prepends "https://" if and only if the
input does not already start with "http://" or "https://"; it strips all
trailing "/" characters; and every normalized result has a scheme and does
not end in "/". -/
theorem C4_normalize_url_amended (url : String) :
    ((strStartsWith url "http://" || strStartsWith url "https://") = true →
      normalize_url url = rstripSlash url)
    ∧ ((strStartsWith url "http://" || strStartsWith url "https://") = false →
      normalize_url url = rstripSlash ("https://" ++ url))
    ∧ hasScheme (normalize_url url) = true
    ∧ endsWithSlash (normalize_url url) = false := by
  refine ⟨?_, ?_, ?_, ?_⟩
  · intro h; simp [normalize_url, h]
  · intro h; simp [normalize_url, h]
  · unfold normalize_url
    by_cases h : (strStartsWith url "http://" || strStartsWith url "https://") = true
    · rw [if_pos h]
      rcases Bool.or_eq_true_iff.mp h with h1 | h2
      · exact hasScheme_rstrip_http url h1
      · exact hasScheme_rstrip_https url h2
    · rw [if_neg h]
      refine hasScheme_rstrip_https _ ?_
      unfold strStartsWith
      rw [List.isPrefixOf_iff_prefix]
      have : ("https://" ++ url).toList = "https://".toList ++ url.toList :=
        String.data_append _ _
      rw [this]
      exact List.prefix_append _ _
  · unfold normalize_url
    exact rstripSlash_not_endsWithSlash _

/-- Witness for C4_normalize_url_amended at concrete inputs discharging both
hypotheses. -/
theorem C4_normalize_url_amended_witness :
    (strStartsWith "http://a/" "http://" || strStartsWith "http://a/" "https://") = true
    ∧ normalize_url "http://a/" = rstripSlash "http://a/"
    ∧ (strStartsWith "example.com" "http://" || strStartsWith "example.com" "https://") = false
    ∧ normalize_url "example.com" = rstripSlash ("https://" ++ "example.com") :=
  ⟨by decide, (C4_normalize_url_amended "http://a/").1 (by decide), by decide,
    (C4_normalize_url_amended "example.com").2.1 (by decide)⟩

/-- Claim C5, counterexample: a page whose single image carries the
non-empty but whitespace-only alt " " has every image with a non-empty alt,
yet image_alt_ratio is 0, not the claimed 100 (the code strips the alt
before counting it). -/
theorem C5_counterexample_blank_alt :
    ((imagesOf blankAltDoc).all (fun img => img.attrD "alt" "" != "")) = true
    ∧ ((get_seo_data (stateOf "https://example.com" blankAltDoc)).map SeoData.image_alt_ratio)
      = some 0
    ∧ ((get_seo_data (stateOf "https://example.com" blankAltDoc)).map SeoData.image_alt_ratio)
      ≠ some 100 := by
  decide

/-- Claim C5, amended: image_alt_ratio is always in [0, 100]; it equals 100
when images exist and every image's alt attribute is non-blank (non-empty
after stripping whitespace); it equals 0 when no images exist. -/
theorem C5_image_alt_ratio_amended (url : String) (t : ℚ) (r : Option Response) (d : Dom) :
    0 ≤ ((get_seo_data (ScraperState.mk url (some d) r t)).map SeoData.image_alt_ratio).getD 0
    ∧ ((get_seo_data (ScraperState.mk url (some d) r t)).map SeoData.image_alt_ratio).getD 0
        ≤ 100
    ∧ ((imagesOf d).isEmpty = false →
        ((imagesOf d).all (fun img => strTrim (img.attrD "alt" "") != "")) = true →
        ((get_seo_data (ScraperState.mk url (some d) r t)).map SeoData.image_alt_ratio).getD 0
          = 100)
    ∧ ((imagesOf d).isEmpty = true →
        ((get_seo_data (ScraperState.mk url (some d) r t)).map SeoData.image_alt_ratio).getD 0
          = 0) := by
  have hx : ((get_seo_data (ScraperState.mk url (some d) r t)).map SeoData.image_alt_ratio).getD 0
      = imgAltRatioOf d := rfl
  rw [hx]
  exact ⟨Nat.zero_le _, imgAltRatioOf_le_100 d, imgAltRatioOf_all_alt d,
    imgAltRatioOf_no_images d⟩

/-- Witness for C5_image_alt_ratio_amended: a page with one non-blank-alt
image yields ratio 100, and an empty page yields ratio 0. -/
theorem C5_image_alt_ratio_amended_witness :
    (imagesOf altDoc).isEmpty = false
    ∧ ((imagesOf altDoc).all (fun img => strTrim (img.attrD "alt" "") != "")) = true
    ∧ ((get_seo_data (ScraperState.mk "https://example.com" (some altDoc) none 0)).map
        SeoData.image_alt_ratio).getD 0 = 100
    ∧ (imagesOf Dom.nil).isEmpty = true
    ∧ ((get_seo_data (ScraperState.mk "https://example.com" (some Dom.nil) none 0)).map
        SeoData.image_alt_ratio).getD 0 = 0 :=
  ⟨by decide, by decide,
    (C5_image_alt_ratio_amended "https://example.com" 0 none altDoc).2.2.1 (by decide) (by decide),
    by decide,
    (C5_image_alt_ratio_amended "https://example.com" 0 none Dom.nil).2.2.2 (by decide)⟩

/-- Claim C6, counterexample: the anchor href "ftp://sub.example.com/x" is
absolute (it has a scheme) and its host contains the page's host
"example.com", so the claim counts it internal; the code counts it neither
internal nor external because it only treats "http://"/"https://" prefixes
as absolute. -/
theorem C6_counterexample_nonhttp_scheme :
    claim_C6_internal "example.com" "ftp://sub.example.com/x" = true
    ∧ netloc "https://example.com" = "example.com"
    ∧ ((get_seo_data (stateOf "https://example.com" ftpDoc)).map
        (fun sd => (sd.internal_links, sd.external_links))) = some (0, 0) := by
  decide

/-- Claim C6, amended: for every anchor with an href, internal_links counts
exactly the hrefs that either start with "http://" or "https://" and whose
host (urlparse netloc) contains the page's host as a substring, or start
with "/"; external_links counts exactly the "http://"/"https://" hrefs whose
host does not contain the page's host; all other hrefs (including absolute
ones with any other scheme) are counted as neither. -/
theorem C6_link_classification_amended (url : String) (t : ℚ) (r : Option Response) (d : Dom) :
    ((get_seo_data (ScraperState.mk url (some d) r t)).map SeoData.internal_links)
      = some ((hrefsOf d).countP (fun href => amended_isInternal (netloc url) href))
    ∧ ((get_seo_data (ScraperState.mk url (some d) r t)).map SeoData.external_links)
      = some ((hrefsOf d).countP (fun href => amended_isExternal (netloc url) href)) := by
  have h1 : ((get_seo_data (ScraperState.mk url (some d) r t)).map SeoData.internal_links)
      = some (linkCounts (netloc url) (hrefsOf d)).1 := rfl
  have h2 : ((get_seo_data (ScraperState.mk url (some d) r t)).map SeoData.external_links)
      = some (linkCounts (netloc url) (hrefsOf d)).2 := rfl
  have hc : linkCounts (netloc url) (hrefsOf d)
      = ((hrefsOf d).countP (fun href => amended_isInternal (netloc url) href),
         (hrefsOf d).countP (fun href => amended_isExternal (netloc url) href)) := by
    unfold linkCounts
    rw [linkCounts_foldl]
    simp
  rw [h1, h2, hc]
  exact ⟨rfl, rfl⟩

/-- Claim C7: the UX accessibility score is clamped by min(100, score) and
the raw score is a sum of non-negative parts, so for every document the
reported accessibility_score lies in [0, 100]. -/
theorem C7_accessibility_score_bounded (url : String) (t : ℚ) (r : Option Response) (d : Dom) :
    0 ≤ ((get_ux_data (ScraperState.mk url (some d) r t)).map UxData.accessibility_score).getD 0
    ∧ ((get_ux_data (ScraperState.mk url (some d) r t)).map UxData.accessibility_score).getD 0
        ≤ 100 := by
  have hx : ((get_ux_data (ScraperState.mk url (some d) r t)).map
      UxData.accessibility_score).getD 0
      = min 100
        (imgAccPart d
          + (if ((elemsF d).find? (fun t => t.name == "h1")).isSome then 20 else 0)
          + labelAccPart d
          + (if (elemsF d).any (fun t => (t.attr "aria-label").isSome) then 20 else 0)) := rfl
  rw [hx]
  exact ⟨Nat.zero_le _, min_le_left _ _⟩

/-- Claim C8: on a freshly constructed scraper (no fetch yet: soup and
response are missing, load_time is 0), get_seo_data, get_content_data and
get_ux_data return the empty mapping (and the state is not modified), while
get_speed_data returns the fully populated default mapping: load_time 0,
page_size_kb 0, total_requests 1, zero file counts and false booleans. -/
theorem C8_unfetched_state_defaults (url : String) :
    get_seo_data (initState url) = none
    ∧ (get_content_data (initState url)).1 = none
    ∧ (get_content_data (initState url)).2 = initState url
    ∧ get_ux_data (initState url) = none
    ∧ get_speed_data (initState url)
        = { load_time := 0, page_size_kb := 0, total_requests := 1, css_files := 0,
            js_files := 0, image_count := 0, has_compression := false,
            has_caching := false } := by
  have h0 : round2 0 = 0 := by norm_num [round2]
  exact ⟨rfl, rfl, rfl, rfl, by simp [get_speed_data, initState, h0]⟩

/-- Claim C9: every ratio in the extractors guards its denominator
(image_alt_ratio when there are no images, avg_paragraph_length when there
are no paragraphs, content_to_code_ratio when the raw HTML is empty, and the
accessibility label/input contribution when there are no inputs): the
checked variants, in which each division fails on a zero denominator,
always succeed and agree with the extractors. -/
theorem C9_division_guards (url : String) (t : ℚ) (r : Response) (d : Dom)
    (htmlText visText : String) :
    ((get_seo_data (ScraperState.mk url (some d) (some r) t)).map SeoData.image_alt_ratio)
      = imgAltRatioChecked d
    ∧ ((get_content_data (ScraperState.mk url (some d) (some r) t)).1.map
        ContentData.avg_paragraph_length) = avgParLenChecked (pruneF pruneNames d)
    ∧ imgAltRatioChecked d = some (imgAltRatioOf d)
    ∧ avgParLenChecked d = some (avgParLenOf d)
    ∧ contentRatioChecked htmlText visText = some (contentRatioOf htmlText visText)
    ∧ labelAccChecked d = some (labelAccPart d) := by
  have himg : ∀ dd : Dom, imgAltRatioChecked dd = some (imgAltRatioOf dd) := by
    intro dd
    simp only [imgAltRatioChecked, imgAltRatioOf, pyRoundNatChecked]
    by_cases he : (imagesOf dd).isEmpty
    · simp [he]
    · have hlen : (imagesOf dd).length ≠ 0 := by
        cases hc : imagesOf dd with
        | nil => rw [hc] at he; simp at he
        | cons a l => simp
      simp [he, hlen]
  have havg : ∀ dd : Dom, avgParLenChecked dd = some (avgParLenOf dd) := by
    intro dd
    simp only [avgParLenChecked, avgParLenOf, pyRoundNatChecked]
    by_cases he : (elemsNamed dd "p").isEmpty
    · simp [he]
    · have hlen : (elemsNamed dd "p").length ≠ 0 := by
        cases hc : elemsNamed dd "p" with
        | nil => rw [hc] at he; simp at he
        | cons a l => simp
      simp [he, hlen]
  have hratio : contentRatioChecked htmlText visText = some (contentRatioOf htmlText visText) := by
    simp only [contentRatioChecked, contentRatioOf, pyRoundNatChecked]
    by_cases hp : 0 < htmlText.length
    · have : htmlText.length ≠ 0 := by omega
      simp [hp, this]
    · simp [hp]
  have hlabel : labelAccChecked d = some (labelAccPart d) := by
    simp only [labelAccChecked, labelAccPart, natDivChecked]
    by_cases hg : (!(elemsNamed d "input").isEmpty && !(elemsNamed d "label").isEmpty) = true
    · have hlen : (elemsNamed d "input").length ≠ 0 := by
        have hi : (elemsNamed d "input").isEmpty = false := by
          rcases Bool.and_eq_true_iff.mp hg with ⟨hi, _⟩
          cases hc : (elemsNamed d "input").isEmpty
          · rfl
          · rw [hc] at hi; simp at hi
        cases hc : elemsNamed d "input" with
        | nil => rw [hc] at hi; simp at hi
        | cons a l => simp
      simp [hg, hlen]
    · simp [hg]
  refine ⟨?_, ?_, himg d, havg d, hratio, hlabel⟩
  · have hb : ((get_seo_data (ScraperState.mk url (some d) (some r) t)).map
        SeoData.image_alt_ratio) = some (imgAltRatioOf d) := rfl
    rw [hb, himg d]
  · have hb : ((get_content_data (ScraperState.mk url (some d) (some r) t)).1.map
        ContentData.avg_paragraph_length) = some (avgParLenOf (pruneF pruneNames d)) := rfl
    rw [hb, havg (pruneF pruneNames d)]

/-- Claim C10: mobile_friendly_indicators is the sum of an all-or-nothing
viewport bonus (+30) and an all-or-nothing responsive-class bonus (+40), so
for every document it takes only the values 0, 30, 40 or 70. -/
theorem C10_mobile_indicator_values (url : String) (t : ℚ) (r : Option Response) (d : Dom) :
    ((get_ux_data (ScraperState.mk url (some d) r t)).map
      UxData.mobile_friendly_indicators).getD 0 ∈ ([0, 30, 40, 70] : List Nat) := by
  have hx : ((get_ux_data (ScraperState.mk url (some d) r t)).map
      UxData.mobile_friendly_indicators).getD 0
      = (if ((elemsF d).find? (fun t => t.name == "meta" && t.attr "name" == some "viewport")).isSome
          then 30 else 0)
        + (if responsiveClasses.any (fun cls => strContains (serializeF d) cls) then 40 else 0) :=
    rfl
  rw [hx]
  split <;> split <;> decide
